import Mathlib

/-!
Verification of the Black-Scholes option-greeks calculator in
`src/option_greeks/option_greeks.ipynb`.

The notebook defines six functions: `d` (auxiliary quantities d1, d2),
`call_price`, `put_price`, `delta`, `gamma`, `theta`.  The normal
distribution's cumulative function `norm.cdf` (written Φ) and density
`norm.pdf` (written φ) are external collaborators supplied by scipy, so the
embedding takes them as function arguments `normCdf` / `normPdf`.

Machine floating point is modelled by real arithmetic; Lean's convention
`x / 0 = 0` stands in for the division-by-zero cases, which are discussed
at the theorems that touch them.

Two behaviours of the source need explicit modelling:

* the call branch of `delta` evaluates `norm.cdf(d1)` where `d1` is the
  notebook's module-level variable, not the function's parameter `d_1`.
  The embedding therefore passes the module-level value as an explicit
  argument `g_d1`;
* `delta` returns Python's `None` when `contract_type` is neither of the
  two recognised strings, and `theta` raises `UnboundLocalError` there
  (its local accumulator is never assigned).  Both outcomes are modelled
  as `Option.none`.
-/

namespace OptionGreeks

noncomputable section

/-- Embedding of `d` from the notebook:
`d1 = 1 / (sigma * np.sqrt(t)) * (np.log(S/K) + (r + sigma**2/2) * t)`,
`d2 = d1 - sigma * np.sqrt(t)`, returned as a pair. -/
def d (sigma S K r t : ℝ) : ℝ × ℝ :=
  let d1 := 1 / (sigma * Real.sqrt t) * (Real.log (S / K) + (r + sigma ^ 2 / 2) * t)
  let d2 := d1 - sigma * Real.sqrt t
  (d1, d2)

/-- Embedding of `call_price`:
`C = norm.cdf(d1) * S - norm.cdf(d2) * K * np.exp(-r * t)`.
The `sigma` parameter is listed because the source lists it, though the body
never mentions it. -/
def call_price (normCdf : ℝ → ℝ) (sigma S K r t d1 d2 : ℝ) : ℝ :=
  normCdf d1 * S - normCdf d2 * K * Real.exp (-r * t)

/-- Embedding of `put_price`:
`P = -norm.cdf(-d1) * S + norm.cdf(-d2) * K * np.exp(-r * t)`. -/
def put_price (normCdf : ℝ → ℝ) (sigma S K r t d1 d2 : ℝ) : ℝ :=
  -normCdf (-d1) * S + normCdf (-d2) * K * Real.exp (-r * t)

/-- Embedding of `delta`.  The source is

```
def delta(d_1, contract_type):
    if contract_type == 'c':
        return norm.cdf(d1)
    if contract_type == 'p':
        return -norm.cdf(-d_1)
```

The call branch reads the module-level variable `d1` (modelled by the
extra argument `g_d1`), not the parameter `d_1`.  Falling through both
branches returns Python's `None`, modelled as `none`. -/
def delta (normCdf : ℝ → ℝ) (g_d1 : ℝ) (d_1 : ℝ) (contract_type : String) : Option ℝ :=
  if contract_type = "c" then some (normCdf g_d1)
  else if contract_type = "p" then some (-normCdf (-d_1))
  else none

/-- Embedding of `gamma`:
`K * np.exp(-r * t) * (norm.pdf(d2) / (S**2 * sigma * np.sqrt(t)))`. -/
def gamma (normPdf : ℝ → ℝ) (d2 S K sigma r t : ℝ) : ℝ :=
  K * Real.exp (-r * t) * (normPdf d2 / (S ^ 2 * sigma * Real.sqrt t))

/-- Embedding of `theta`.  The source assigns a local on the `'c'` and
`'p'` branches and then returns it; when neither branch fires the final
`return theta` raises `UnboundLocalError`, modelled as `none`. -/
def theta (normPdf normCdf : ℝ → ℝ) (d1 d2 S K sigma r t : ℝ)
    (contract_type : String) : Option ℝ :=
  if contract_type = "c" then
    some (-S * sigma * normPdf d1 / (2 * Real.sqrt t)
      - r * K * Real.exp (-r * t) * normCdf d2)
  else if contract_type = "p" then
    some (-S * sigma * normPdf (-d1) / (2 * Real.sqrt t)
      + r * K * Real.exp (-r * t) * normCdf (-d2))
  else none

/-- A concrete stand-in for Φ used in counterexamples: the piecewise-linear
ramp `max 0 (min 1 ((x + 1) / 2))`.  It maps into `[0, 1]` and satisfies
`clampCdf x + clampCdf (-x) = 1`, the two properties the spec assumes of
the external Φ, while being non-constant. -/
def clampCdf (x : ℝ) : ℝ := max 0 (min 1 ((x + 1) / 2))

lemma clampCdf_nonneg (x : ℝ) : 0 ≤ clampCdf x := le_max_left 0 _

lemma clampCdf_le_one (x : ℝ) : clampCdf x ≤ 1 :=
  max_le zero_le_one (min_le_left 1 _)

lemma clampCdf_symm (x : ℝ) : clampCdf x + clampCdf (-x) = 1 := by
  unfold clampCdf
  rcases le_total ((x + 1) / 2) 0 with h | h
  · rw [min_eq_right (by linarith : (x + 1) / 2 ≤ 1), max_eq_left h,
      min_eq_left (by linarith : (1 : ℝ) ≤ (-x + 1) / 2),
      max_eq_right (by norm_num : (0 : ℝ) ≤ 1)]
    norm_num
  · rcases le_total ((x + 1) / 2) 1 with h2 | h2
    · rw [min_eq_right h2, max_eq_right h,
        min_eq_right (by linarith : (-x + 1) / 2 ≤ 1),
        max_eq_right (by linarith : (0 : ℝ) ≤ (-x + 1) / 2)]
      ring
    · rw [min_eq_left h2, max_eq_right (by norm_num : (0 : ℝ) ≤ 1),
        min_eq_right (by linarith : (-x + 1) / 2 ≤ 1),
        max_eq_left (by linarith : (-x + 1) / 2 ≤ 0)]
      norm_num

/-!  Claim theorems. -/

/-- C1: the claim says `delta` with contract type Call returns Φ applied to
the `d_1` value passed as the parameter.  It does not: the call branch reads
the module-level `d1`.  With Φ instantiated to the identity on the points of
interest, module-level value `0` and parameter `1`, the call returns
`some 0` = Φ(module-level value), not `some 1` = Φ(parameter). -/
theorem delta_call_uses_global :
    delta (fun x => x) 0 1 "c" = some 0 ∧ delta (fun x => x) 0 1 "c" ≠ some 1 := by
  constructor
  · rfl
  · simp [delta]

/-- C2: the claim says `delta` and `theta` fail with `InvalidContractType`
on contract types outside Call/Put.  Neither does: `delta` falls through
both branches and returns Python's `None` (a default value, modelled as
`none`), and `theta` reaches `return theta` with the local unassigned
(`UnboundLocalError`, modelled as `none`); no `InvalidContractType` error
exists anywhere in the source. -/
theorem invalid_contract_type_fallthrough :
    delta (fun x => x) 0 0 "x" = none ∧
    theta (fun x => x) (fun x => x) 0 0 1 1 1 0 1 "x" = none := by
  constructor <;> rfl

/-- C3: the claim says the auxiliary-quantity calculator reports an
`InvalidInput` failure for σ = 0 (or t = 0, S ≤ 0, K ≤ 0).  The source `d`
contains no validation and no error path at all: it is a straight-line
arithmetic expression that returns a pair for every input.  At σ = 0 and
the notebook's other market inputs it returns a value (under Lean's
`x / 0 = 0` convention the pair `(0, 0)`; under IEEE/numpy semantics an
infinite or NaN pair accompanied only by a RuntimeWarning), rather than
signalling any failure to the caller. -/
theorem d_no_error_at_sigma_zero :
    d 0 819.42 1020 0.01 (42 / 365) = (0, 0) := by
  simp [d]

/-- C4: put-call parity.  Assuming the external Φ satisfies
`Φ x + Φ (-x) = 1`, for all inputs with S, K, t > 0 the difference
`call_price - put_price` equals `S - K * exp (-r * t)`. -/
theorem put_call_parity (normCdf : ℝ → ℝ) (h : ∀ x, normCdf x + normCdf (-x) = 1)
    (sigma S K r t d1 d2 : ℝ) (hS : 0 < S) (hK : 0 < K) (ht : 0 < t) :
    call_price normCdf sigma S K r t d1 d2 - put_price normCdf sigma S K r t d1 d2
      = S - K * Real.exp (-r * t) := by
  simp only [call_price, put_price]
  linear_combination S * h d1 - K * Real.exp (-r * t) * h d2

/-- Witness for C4 at Φ = const 1/2, σ = 1, S = 1, K = 1, r = 0, t = 1,
d1 = 0, d2 = 0. -/
theorem put_call_parity_witness :
    call_price (fun _ => 1 / 2) 1 1 1 0 1 0 0 - put_price (fun _ => 1 / 2) 1 1 1 0 1 0 0
      = 1 - 1 * Real.exp (-0 * 1) :=
  put_call_parity (fun _ => 1 / 2) (fun x => by norm_num) 1 1 1 0 1 0 0
    (by norm_num) (by norm_num) (by norm_num)

/-- C5: for σ, t, S, K > 0 the calculator `d` returns the pair with
`d1 = (ln (S / K) + (r + σ² / 2) * t) / (σ * √t)` and `d2 = d1 - σ * √t`. -/
theorem d_formula (sigma S K r t : ℝ) (hsigma : 0 < sigma) (ht : 0 < t)
    (hS : 0 < S) (hK : 0 < K) :
    d sigma S K r t
      = ((Real.log (S / K) + (r + sigma ^ 2 / 2) * t) / (sigma * Real.sqrt t),
          (Real.log (S / K) + (r + sigma ^ 2 / 2) * t) / (sigma * Real.sqrt t)
            - sigma * Real.sqrt t) := by
  simp only [d, Prod.mk.injEq]
  constructor <;> ring

/-- Witness for C5 at σ = 1, S = 1, K = 1, r = 0, t = 1. -/
theorem d_formula_witness :
    d 1 1 1 0 1
      = ((Real.log (1 / 1) + (0 + 1 ^ 2 / 2) * 1) / (1 * Real.sqrt 1),
          (Real.log (1 / 1) + (0 + 1 ^ 2 / 2) * 1) / (1 * Real.sqrt 1)
            - 1 * Real.sqrt 1) :=
  d_formula 1 1 1 0 1 (by norm_num) (by norm_num) (by norm_num) (by norm_num)

/-- C6: for S, K, σ, t > 0, `gamma` returns
`K * exp (-r * t) * φ d2 / (S² * σ * √t)`, with the discount exponent using
the same risk-free rate `r` that is passed to every other formula. -/
theorem gamma_formula (normPdf : ℝ → ℝ) (d2 S K sigma r t : ℝ)
    (hS : 0 < S) (hK : 0 < K) (hsigma : 0 < sigma) (ht : 0 < t) :
    gamma normPdf d2 S K sigma r t
      = K * Real.exp (-r * t) * normPdf d2 / (S ^ 2 * sigma * Real.sqrt t) := by
  simp only [gamma]
  ring

/-- Witness for C6 at φ = const 0, d2 = 0, S = 1, K = 1, σ = 1, r = 0, t = 1. -/
theorem gamma_formula_witness :
    gamma (fun _ => 0) 0 1 1 1 0 1
      = 1 * Real.exp (-0 * 1) * 0 / (1 ^ 2 * 1 * Real.sqrt 1) :=
  gamma_formula (fun _ => 0) 0 1 1 1 0 1
    (by norm_num) (by norm_num) (by norm_num) (by norm_num)

/-- C7: for t > 0, `theta` with contract type Call returns
`-(S * σ * φ d1) / (2 * √t) - r * K * exp (-r * t) * Φ d2` and with Put
returns `-(S * σ * φ (-d1)) / (2 * √t) + r * K * exp (-r * t) * Φ (-d2)`;
the put's discounting term indeed carries a plus sign in the source. -/
theorem theta_formula (normPdf normCdf : ℝ → ℝ) (d1 d2 S K sigma r t : ℝ)
    (ht : 0 < t) :
    theta normPdf normCdf d1 d2 S K sigma r t "c"
        = some (-(S * sigma * normPdf d1) / (2 * Real.sqrt t)
            - r * K * Real.exp (-r * t) * normCdf d2) ∧
    theta normPdf normCdf d1 d2 S K sigma r t "p"
        = some (-(S * sigma * normPdf (-d1)) / (2 * Real.sqrt t)
            + r * K * Real.exp (-r * t) * normCdf (-d2)) := by
  refine ⟨?_, ?_⟩
  · have h1 : theta normPdf normCdf d1 d2 S K sigma r t "c"
        = some (-S * sigma * normPdf d1 / (2 * Real.sqrt t)
            - r * K * Real.exp (-r * t) * normCdf d2) := rfl
    rw [h1]
    congr 1
    ring
  · have h2 : theta normPdf normCdf d1 d2 S K sigma r t "p"
        = some (-S * sigma * normPdf (-d1) / (2 * Real.sqrt t)
            + r * K * Real.exp (-r * t) * normCdf (-d2)) := rfl
    rw [h2]
    congr 1
    ring

/-- Witness for C7 at φ = Φ = const 0 and all scalars 0 except t = 1. -/
theorem theta_formula_witness :
    theta (fun _ => 0) (fun _ => 0) 0 0 0 0 0 0 1 "c"
        = some (-(0 * 0 * 0) / (2 * Real.sqrt 1) - 0 * 0 * Real.exp (-0 * 1) * 0) ∧
    theta (fun _ => 0) (fun _ => 0) 0 0 0 0 0 0 1 "p"
        = some (-(0 * 0 * 0) / (2 * Real.sqrt 1) + 0 * 0 * Real.exp (-0 * 1) * 0) :=
  theta_formula (fun _ => 0) (fun _ => 0) 0 0 0 0 0 0 1 (by norm_num)

/-- C8: the claim says `delta`, `gamma`, `theta` depend only on their
explicit parameters, with no reads of outer-scope variables.  `delta`
violates this: with identical argument lists (parameter `d_1 = 1`, contract
type `"c"`, same Φ), its result changes from `some 0` to `some 5` when
the module-level `d1` changes from 0 to 5. -/
theorem delta_not_deterministic_in_args :
    delta (fun x => x) 0 1 "c" = some 0 ∧ delta (fun x => x) 5 1 "c" = some 5 ∧
    delta (fun x => x) 0 1 "c" ≠ delta (fun x => x) 5 1 "c" := by
  refine ⟨rfl, rfl, ?_⟩
  simp [delta]

/-- C9: the claim says `delta d1 Call - delta d1 Put = 1` at the same `d1`
for any Φ into `[0, 1]` with `Φ x + Φ (-x) = 1`.  `clampCdf` satisfies both
assumptions (see `clampCdf_nonneg`, `clampCdf_le_one`, `clampCdf_symm`),
yet with the module-level `d1 = -1` and the parameter `d_1 = 1` both calls
return `some 0`, so the difference is 0, not 1: the call branch evaluates
Φ at the module-level value instead of the shared parameter. -/
theorem delta_call_put_difference_not_one :
    0 ≤ clampCdf 1 ∧ clampCdf 1 ≤ 1 ∧ clampCdf 1 + clampCdf (-1) = 1 ∧
    delta clampCdf (-1) 1 "c" = some 0 ∧
    delta clampCdf (-1) 1 "p" = some 0 ∧
    (delta clampCdf (-1) 1 "c").getD 0 - (delta clampCdf (-1) 1 "p").getD 0 ≠ 1 := by
  refine ⟨clampCdf_nonneg 1, clampCdf_le_one 1, clampCdf_symm 1, ?_, ?_, ?_⟩ <;>
    norm_num [delta, clampCdf]

/-- C10: `call_price` and `put_price` never read their `sigma` parameter:
for any two volatilities and identical remaining arguments the results
coincide definitionally. -/
theorem price_ignores_sigma (normCdf : ℝ → ℝ) (sigma sigma2 S K r t d1 d2 : ℝ) :
    call_price normCdf sigma S K r t d1 d2 = call_price normCdf sigma2 S K r t d1 d2 ∧
    put_price normCdf sigma S K r t d1 d2 = put_price normCdf sigma2 S K r t d1 d2 :=
  ⟨rfl, rfl⟩

end

end OptionGreeks
